import Mathlib

/-!
A shallow embedding of `src/gluster.rs` from the Gfapi-sys repository.

Each public wrapper in `gluster.rs` follows the pattern "encode the path
arguments, invoke one native `glfs_*` call, check its return value".  The
native layer is external, so every wrapper is embedded as a Lean function
that takes the native call's result as an explicit argument (an oracle) and
returns the wrapper's `Result` together with the list of native calls the
wrapper performed, in order.  Strings are embedded as byte lists, pointers
as `Option Nat` (`none` is the null pointer), and the `as i32` casts of the
source are made explicit through `toI32`.
-/

namespace Gfapi

/-- Byte strings (`&str` / `String` / C string contents): lists of byte values. -/
abbrev Bytes := List Nat

/-- Whether the byte string contains an embedded NUL byte; `CString::new`
rejects exactly these inputs. -/
def hasNul (s : Bytes) : Bool := s.contains 0

/-- `pub enum GlusterError` from `gluster.rs` lines 11-18.  Each variant keeps
the payload that determines it (messages and offending byte strings are kept
as byte lists). -/
inductive GlusterError where
  | FromUtf8Error (bytes : Bytes)
  | NulError (bytes : Bytes)
  | Error (msg : Bytes)
  | IoError (msg : Bytes)
  | IntoStringError (bytes : Bytes)
deriving Repr, DecidableEq

/-- `CString::new`: fails with `NulError` when the input contains an embedded
NUL byte, otherwise yields the encoded path.  The `From<NulError>` impl
(lines 38-42) wraps the failure as `GlusterError::NulError`, which `try!`
applies at every call site, so the error is produced directly here. -/
def CString.new (s : Bytes) : Except GlusterError Bytes :=
  if hasNul s then .error (.NulError s) else .ok s

/-- A UTF-8 continuation byte (`0x80..=0xBF`). -/
def isCont (b : Nat) : Bool := decide (0x80 ≤ b) && decide (b ≤ 0xBF)

/-- UTF-8 validity of a byte string (RFC 3629 table: no overlong forms, no
surrogates, no code points above U+10FFFF).  This is the check behind
`CString::into_string`, which fails on invalid UTF-8. -/
def utf8Valid : Bytes → Bool
  | [] => true
  | b :: t =>
    if b ≤ 0x7F then utf8Valid t
    else if 0xC2 ≤ b ∧ b ≤ 0xDF then
      match t with
      | c₁ :: t' => isCont c₁ && utf8Valid t'
      | [] => false
    else if b = 0xE0 then
      match t with
      | c₁ :: c₂ :: t' =>
          decide (0xA0 ≤ c₁) && decide (c₁ ≤ 0xBF) && isCont c₂ && utf8Valid t'
      | _ => false
    else if 0xE1 ≤ b ∧ b ≤ 0xEC then
      match t with
      | c₁ :: c₂ :: t' => isCont c₁ && isCont c₂ && utf8Valid t'
      | _ => false
    else if b = 0xED then
      match t with
      | c₁ :: c₂ :: t' =>
          decide (0x80 ≤ c₁) && decide (c₁ ≤ 0x9F) && isCont c₂ && utf8Valid t'
      | _ => false
    else if 0xEE ≤ b ∧ b ≤ 0xEF then
      match t with
      | c₁ :: c₂ :: t' => isCont c₁ && isCont c₂ && utf8Valid t'
      | _ => false
    else if b = 0xF0 then
      match t with
      | c₁ :: c₂ :: c₃ :: t' =>
          decide (0x90 ≤ c₁) && decide (c₁ ≤ 0xBF) && isCont c₂ && isCont c₃ &&
            utf8Valid t'
      | _ => false
    else if 0xF1 ≤ b ∧ b ≤ 0xF3 then
      match t with
      | c₁ :: c₂ :: c₃ :: t' => isCont c₁ && isCont c₂ && isCont c₃ && utf8Valid t'
      | _ => false
    else if b = 0xF4 then
      match t with
      | c₁ :: c₂ :: c₃ :: t' =>
          decide (0x80 ≤ c₁) && decide (c₁ ≤ 0x8F) && isCont c₂ && isCont c₃ &&
            utf8Valid t'
      | _ => false
    else false

/-- `CString::into_string`: succeeds with the (UTF-8) string contents, fails
with `IntoStringError` when the bytes are not valid UTF-8.  The
`From<IntoStringError>` impl (lines 49-53) wraps the failure as
`GlusterError::IntoStringError`. -/
def CString.into_string (s : Bytes) : Except GlusterError Bytes :=
  if utf8Valid s then .ok s else .error (.IntoStringError s)

/-- The platform, as consumed by `gluster.rs`: only `libc::strerror` is used,
a total map from a `c_int` to the NUL-terminated description bytes it points
at. -/
structure Platform where
  strerror : Int → Bytes

/-- `fn get_error(n: c_int)` from `gluster.rs` lines 60-66: calls
`strerror(n)` (with `n` exactly as given), takes ownership of the resulting C
string, and decodes it with `into_string`, propagating a decoding failure
with `try!`. -/
def get_error (p : Platform) (n : Int) : Except GlusterError Bytes :=
  CString.into_string (p.strerror n)

/-- The error value built by the recurring source pattern
`Err(GlusterError::new(try!(get_error(n))))`: on a successful lookup the
message is wrapped as `GlusterError::Error`; when `get_error` itself fails,
`try!` returns that (`IntoStringError`) failure instead. -/
def errFrom (p : Platform) (n : Int) : GlusterError :=
  match get_error p n with
  | .ok msg => .Error msg
  | .error e => e

/-- Rust's `as i32` cast on a wider signed integer: wrap into
`[-2^31, 2^31)`. -/
def toI32 (n : Int) : Int :=
  if n % 2 ^ 32 < 2 ^ 31 then n % 2 ^ 32 else n % 2 ^ 32 - 2 ^ 32

/-- Byte list of an ASCII string literal (character code = byte value). -/
def str (s : String) : Bytes := s.data.map Char.toNat

/-- The `errno` value `ENOENT` ("No such file or directory"). -/
def ENOENT : Int := 2

/-- Modelled from the spec: the platform's standard error-description
facility (`libc::strerror`, not part of this repository).  Spec section 4.1:
the translator "resolves `code` to the platform's standard description
string for that error number"; following glibc, known positive error numbers
resolve to their standard descriptions and any other argument (negative
codes included) resolves to the fallback text naming the argument itself. -/
def glibcStrerror (n : Int) : Bytes :=
  if n = 1 then str "Operation not permitted"
  else if n = 2 then str "No such file or directory"
  else if n = 13 then str "Permission denied"
  else str ("Unknown error " ++ toString n)

/-- The concrete platform used for witnesses and counterexamples. -/
def glibc : Platform := ⟨glibcStrerror⟩

/-- `*mut Struct_glfs`: `none` is the null pointer. -/
abbrev GlfsPtr := Option Nat

/-- `*mut Struct_glfs_fd`: `none` is the null pointer. -/
abbrev GlfsFdPtr := Option Nat

/-- `pub struct Gluster` (lines 68-70): holds the raw cluster handle. -/
structure Gluster where
  cluster_handle : GlfsPtr
deriving Repr, DecidableEq

/-- One invocation of the native layer, recorded with the arguments the
wrapper passed down.  For `readv`/`preadv` the out-buffers are recorded by
their sizes, in the order the `iovec` array presents them; for
`writev`/`pwritev` the buffer contents are recorded in order. -/
inductive NativeCall where
  | glfs_new (volname : Bytes)
  | glfs_init (handle : GlfsPtr)
  | glfs_fini (handle : GlfsPtr)
  | glfs_open (handle : GlfsPtr) (path : Bytes) (flags : Int)
  | glfs_creat (handle : GlfsPtr) (path : Bytes) (flags : Int) (mode : Nat)
  | glfs_opendir (handle : GlfsPtr) (path : Bytes)
  | glfs_read (fd : Nat) (len : Nat) (flags : Int)
  | glfs_write (fd : Nat) (buf : Bytes) (len : Nat) (flags : Int)
  | glfs_readv (fd : Nat) (iovSizes : List Nat) (iovcnt : Int) (flags : Int)
  | glfs_writev (fd : Nat) (iov : List Bytes) (iovcnt : Int) (flags : Int)
  | glfs_pread (fd : Nat) (count : Nat) (offset : Int) (flags : Int)
  | glfs_pwrite (fd : Nat) (buf : Bytes) (count : Nat) (offset : Int) (flags : Int)
  | glfs_preadv (fd : Nat) (iovSizes : List Nat) (iovcnt : Int) (offset : Int) (flags : Int)
  | glfs_pwritev (fd : Nat) (iov : List Bytes) (iovcnt : Int) (offset : Int) (flags : Int)
  | glfs_lseek (fd : Nat) (offset : Int) (whence : Int)
  | glfs_truncate (handle : GlfsPtr) (path : Bytes) (len : Int)
  | glfs_lstat (handle : GlfsPtr) (path : Bytes)
  | glfs_stat (handle : GlfsPtr) (path : Bytes)
  | glfs_access (handle : GlfsPtr) (path : Bytes) (mode : Int)
  | glfs_symlink (handle : GlfsPtr) (oldpath newpath : Bytes)
  | glfs_readlink (handle : GlfsPtr) (path : Bytes) (buflen : Nat)
  | glfs_mknod (handle : GlfsPtr) (path : Bytes) (mode : Nat) (dev : Nat)
  | glfs_mkdir (handle : GlfsPtr) (path : Bytes) (mode : Nat)
  | glfs_unlink (handle : GlfsPtr) (path : Bytes)
  | glfs_rmdir (handle : GlfsPtr) (path : Bytes)
  | glfs_rename (handle : GlfsPtr) (oldpath newpath : Bytes)
  | glfs_link (handle : GlfsPtr) (oldpath newpath : Bytes)
deriving Repr, DecidableEq

/-- Whether a native call is the release call `glfs_fini`. -/
def isFini : NativeCall → Bool
  | .glfs_fini _ => true
  | _ => false

/-- Number of `glfs_fini` invocations in a trace. -/
def finiCount (t : List NativeCall) : Nat := (t.filter isFini).length

/-- `Gluster::connect` (lines 86-96): encode the volume name, call
`glfs_new` then `glfs_init`; a negative init code is translated with
`get_error(ret_code)` (no cast), otherwise the handle returned by `glfs_new`
is stored unchecked. -/
def Gluster.connect (p : Platform) (volume_name : Bytes) (glfs_new_ret : GlfsPtr)
    (glfs_init_ret : Int) : Except GlusterError Gluster × List NativeCall :=
  match CString.new volume_name with
  | .error e => (.error e, [])
  | .ok vol_name =>
      (if glfs_init_ret < 0 then .error (errFrom p glfs_init_ret)
       else .ok ⟨glfs_new_ret⟩,
       [.glfs_new vol_name, .glfs_init glfs_new_ret])

/-- `impl Drop for Gluster` (lines 72-82): no action on a null handle,
otherwise one `glfs_fini` whose return value is discarded (`r` is unused). -/
def Gluster.drop (g : Gluster) (r : Int) : List NativeCall :=
  match g.cluster_handle with
  | none => []
  | some _ => [.glfs_fini g.cluster_handle]

/-- `Gluster::disconnect` (lines 102-110): the explicit body (no action on a
null handle, otherwise `glfs_fini` with its return value discarded), after
which `self` — which was moved into the method and not forgotten — goes out
of scope and Rust runs `Drop::drop` on it.  `r₁` is the return value of the
body's fini call, `r₂` that of the drop's; both are discarded. -/
def Gluster.disconnect (g : Gluster) (r₁ r₂ : Int) : List NativeCall :=
  (match g.cluster_handle with
   | none => []
   | some _ => [.glfs_fini g.cluster_handle]) ++ Gluster.drop g r₂

/-- `Gluster::open` (lines 111-117): encode the path, call `glfs_open`, and
return whatever handle it produced — the source performs no null check. -/
def Gluster.«open» (g : Gluster) (path : Bytes) (flags : Int)
    (glfs_open_ret : GlfsFdPtr) : Except GlusterError GlfsFdPtr × List NativeCall :=
  match CString.new path with
  | .error e => (.error e, [])
  | .ok cpath => (.ok glfs_open_ret, [.glfs_open g.cluster_handle cpath flags])

/-- `Gluster::create` (lines 118-128): encode the path, call `glfs_creat`,
and return the handle unchecked. -/
def Gluster.create (g : Gluster) (path : Bytes) (flags : Int) (mode : Nat)
    (glfs_creat_ret : GlfsFdPtr) : Except GlusterError GlfsFdPtr × List NativeCall :=
  match CString.new path with
  | .error e => (.error e, [])
  | .ok cpath => (.ok glfs_creat_ret, [.glfs_creat g.cluster_handle cpath flags mode])

/-- `Gluster::opendir` (lines 471-477): encode the path, call
`glfs_opendir`, and return the handle unchecked. -/
def Gluster.opendir (g : Gluster) (path : Bytes)
    (glfs_opendir_ret : GlfsFdPtr) : Except GlusterError GlfsFdPtr × List NativeCall :=
  match CString.new path with
  | .error e => (.error e, [])
  | .ok cpath => (.ok glfs_opendir_ret, [.glfs_opendir g.cluster_handle cpath])

/-- `Gluster::read` (lines 138-154): `glfs_read` with the whole buffer
(`fill_buffer.len()`); a negative `isize` result is translated via
`get_error(read_size as i32)`, otherwise returned as the byte count. -/
def Gluster.read (p : Platform) (fd : Nat) (fill_buffer : Bytes) (flags : Int)
    (glfs_read_ret : Int) : Except GlusterError Int × List NativeCall :=
  (if glfs_read_ret < 0 then .error (errFrom p (toI32 glfs_read_ret))
   else .ok glfs_read_ret,
   [.glfs_read fd fill_buffer.length flags])

/-- `Gluster::write` (lines 155-169): `glfs_write` with the whole buffer;
negative result translated via `get_error(write_size as i32)`. -/
def Gluster.write (p : Platform) (fd : Nat) (buffer : Bytes) (flags : Int)
    (glfs_write_ret : Int) : Except GlusterError Int × List NativeCall :=
  (if glfs_write_ret < 0 then .error (errFrom p (toI32 glfs_write_ret))
   else .ok glfs_write_ret,
   [.glfs_write fd buffer buffer.length flags])

/-- `Gluster::readv` (lines 170-185): the `iovec` array is the caller's
slice reinterpreted in place, so the buffers are presented in caller order;
the element count is `iov.len() as i32`.  Negative result translated via
`get_error(read_size as i32)`. -/
def Gluster.readv (p : Platform) (fd : Nat) (iov : List Bytes) (flags : Int)
    (glfs_readv_ret : Int) : Except GlusterError Int × List NativeCall :=
  (if glfs_readv_ret < 0 then .error (errFrom p (toI32 glfs_readv_ret))
   else .ok glfs_readv_ret,
   [.glfs_readv fd (iov.map List.length) (toI32 iov.length) flags])

/-- `Gluster::writev` (lines 186-201): buffers presented in caller order,
element count `iov.len() as i32`; negative result translated via
`get_error(write_size as i32)`. -/
def Gluster.writev (p : Platform) (fd : Nat) (iov : List Bytes) (flags : Int)
    (glfs_writev_ret : Int) : Except GlusterError Int × List NativeCall :=
  (if glfs_writev_ret < 0 then .error (errFrom p (toI32 glfs_writev_ret))
   else .ok glfs_writev_ret,
   [.glfs_writev fd iov (toI32 iov.length) flags])

/-- `Gluster::pread` (lines 203-220): `glfs_pread` receives the
caller-supplied `count` unchanged — the buffer's length is never consulted.
Negative result translated via `get_error(read_size as i32)`. -/
def Gluster.pread (p : Platform) (fd : Nat) (fill_buffer : Bytes) (count : Nat)
    (offset : Int) (flags : Int) (glfs_pread_ret : Int) :
    Except GlusterError Int × List NativeCall :=
  (if glfs_pread_ret < 0 then .error (errFrom p (toI32 glfs_pread_ret))
   else .ok glfs_pread_ret,
   [.glfs_pread fd count offset flags])

/-- `Gluster::pwrite` (lines 221-239): `glfs_pwrite` receives the
caller-supplied `count` unchanged.  Negative result translated via
`get_error(write_size as i32)`. -/
def Gluster.pwrite (p : Platform) (fd : Nat) (buffer : Bytes) (count : Nat)
    (offset : Int) (flags : Int) (glfs_pwrite_ret : Int) :
    Except GlusterError Int × List NativeCall :=
  (if glfs_pwrite_ret < 0 then .error (errFrom p (toI32 glfs_pwrite_ret))
   else .ok glfs_pwrite_ret,
   [.glfs_pwrite fd buffer count offset flags])

/-- `Gluster::preadv` (lines 241-257): buffers presented in caller order,
element count `iov.len() as i32`, explicit offset. -/
def Gluster.preadv (p : Platform) (fd : Nat) (iov : List Bytes) (offset : Int)
    (flags : Int) (glfs_preadv_ret : Int) : Except GlusterError Int × List NativeCall :=
  (if glfs_preadv_ret < 0 then .error (errFrom p (toI32 glfs_preadv_ret))
   else .ok glfs_preadv_ret,
   [.glfs_preadv fd (iov.map List.length) (toI32 iov.length) offset flags])

/-- `Gluster::pwritev` (lines 259-275): buffers presented in caller order,
element count `iov.len() as i32`, explicit offset. -/
def Gluster.pwritev (p : Platform) (fd : Nat) (iov : List Bytes) (offset : Int)
    (flags : Int) (glfs_pwritev_ret : Int) : Except GlusterError Int × List NativeCall :=
  (if glfs_pwritev_ret < 0 then .error (errFrom p (toI32 glfs_pwritev_ret))
   else .ok glfs_pwritev_ret,
   [.glfs_pwritev fd iov (toI32 iov.length) offset flags])

/-- `Gluster::lseek` (lines 276-289): a negative `i64` offset result is
translated via `get_error(file_offset as i32)`, otherwise the resulting
absolute offset is returned. -/
def Gluster.lseek (p : Platform) (fd : Nat) (offset : Int) (whence : Int)
    (glfs_lseek_ret : Int) : Except GlusterError Int × List NativeCall :=
  (if glfs_lseek_ret < 0 then .error (errFrom p (toI32 glfs_lseek_ret))
   else .ok glfs_lseek_ret,
   [.glfs_lseek fd offset whence])

/-- `Gluster::truncate` (lines 290-300): path op, negative `c_int` return
translated via `get_error(ret_code as i32)`. -/
def Gluster.truncate (p : Platform) (g : Gluster) (path : Bytes) (len : Int)
    (ret : Int) : Except GlusterError Unit × List NativeCall :=
  match CString.new path with
  | .error e => (.error e, [])
  | .ok cpath =>
      (if ret < 0 then .error (errFrom p (toI32 ret)) else .ok (),
       [.glfs_truncate g.cluster_handle cpath len])

/-- `Gluster::lsstat` (lines 310-320): fills a zeroed `stat` buffer through
`glfs_lstat`; the metadata record is opaque here (a `Nat` payload supplied by
the native oracle). -/
def Gluster.lsstat (p : Platform) (g : Gluster) (path : Bytes) (ret : Int)
    (stat_buf : Nat) : Except GlusterError Nat × List NativeCall :=
  match CString.new path with
  | .error e => (.error e, [])
  | .ok cpath =>
      (if ret < 0 then .error (errFrom p (toI32 ret)) else .ok stat_buf,
       [.glfs_lstat g.cluster_handle cpath])

/-- `Gluster::stat` (lines 321-332): like `lsstat` but through `glfs_stat`. -/
def Gluster.stat (p : Platform) (g : Gluster) (path : Bytes) (ret : Int)
    (stat_buf : Nat) : Except GlusterError Nat × List NativeCall :=
  match CString.new path with
  | .error e => (.error e, [])
  | .ok cpath =>
      (if ret < 0 then .error (errFrom p (toI32 ret)) else .ok stat_buf,
       [.glfs_stat g.cluster_handle cpath])

/-- `Gluster::access` (lines 363-373): negative return translated via
`get_error(ret_code as i32)`. -/
def Gluster.access (p : Platform) (g : Gluster) (path : Bytes) (mode : Int)
    (ret : Int) : Except GlusterError Unit × List NativeCall :=
  match CString.new path with
  | .error e => (.error e, [])
  | .ok cpath =>
      (if ret < 0 then .error (errFrom p (toI32 ret)) else .ok (),
       [.glfs_access g.cluster_handle cpath mode])

/-- `Gluster::symlink` (lines 375-386): `oldpath` is encoded first, then
`newpath`; negative return translated via `get_error(ret_code as i32)`. -/
def Gluster.symlink (p : Platform) (g : Gluster) (oldpath newpath : Bytes)
    (ret : Int) : Except GlusterError Unit × List NativeCall :=
  match CString.new oldpath with
  | .error e => (.error e, [])
  | .ok old_path =>
      match CString.new newpath with
      | .error e => (.error e, [])
      | .ok new_path =>
          (if ret < 0 then .error (errFrom p (toI32 ret)) else .ok (),
           [.glfs_symlink g.cluster_handle old_path new_path])

/-- `Gluster::readlink` (lines 388-400): passes the caller's buffer and its
length; negative return translated via `get_error(ret_code)` (no cast). -/
def Gluster.readlink (p : Platform) (g : Gluster) (path : Bytes) (buf : Bytes)
    (ret : Int) : Except GlusterError Unit × List NativeCall :=
  match CString.new path with
  | .error e => (.error e, [])
  | .ok cpath =>
      (if ret < 0 then .error (errFrom p ret) else .ok (),
       [.glfs_readlink g.cluster_handle cpath buf.length])

/-- `Gluster::mknod` (lines 402-412): negative return translated via
`get_error(ret_code)` (no cast). -/
def Gluster.mknod (p : Platform) (g : Gluster) (path : Bytes) (mode : Nat)
    (dev : Nat) (ret : Int) : Except GlusterError Unit × List NativeCall :=
  match CString.new path with
  | .error e => (.error e, [])
  | .ok cpath =>
      (if ret < 0 then .error (errFrom p ret) else .ok (),
       [.glfs_mknod g.cluster_handle cpath mode dev])

/-- `Gluster::mkdir` (lines 414-424): negative return translated via
`get_error(ret_code)` (no cast). -/
def Gluster.mkdir (p : Platform) (g : Gluster) (path : Bytes) (mode : Nat)
    (ret : Int) : Except GlusterError Unit × List NativeCall :=
  match CString.new path with
  | .error e => (.error e, [])
  | .ok cpath =>
      (if ret < 0 then .error (errFrom p ret) else .ok (),
       [.glfs_mkdir g.cluster_handle cpath mode])

/-- `Gluster::unlink` (lines 426-436): negative return translated via
`get_error(ret_code)` (no cast). -/
def Gluster.unlink (p : Platform) (g : Gluster) (path : Bytes) (ret : Int) :
    Except GlusterError Unit × List NativeCall :=
  match CString.new path with
  | .error e => (.error e, [])
  | .ok cpath =>
      (if ret < 0 then .error (errFrom p ret) else .ok (),
       [.glfs_unlink g.cluster_handle cpath])

/-- `Gluster::rmdir` (lines 437-446): negative return translated via
`get_error(ret_code as i32)`. -/
def Gluster.rmdir (p : Platform) (g : Gluster) (path : Bytes) (ret : Int) :
    Except GlusterError Unit × List NativeCall :=
  match CString.new path with
  | .error e => (.error e, [])
  | .ok cpath =>
      (if ret < 0 then .error (errFrom p (toI32 ret)) else .ok (),
       [.glfs_rmdir g.cluster_handle cpath])

/-- `Gluster::rename` (lines 447-457): `oldpath` encoded first, then
`newpath`; negative return translated via `get_error(ret_code)` (no cast). -/
def Gluster.rename (p : Platform) (g : Gluster) (oldpath newpath : Bytes)
    (ret : Int) : Except GlusterError Unit × List NativeCall :=
  match CString.new oldpath with
  | .error e => (.error e, [])
  | .ok old_path =>
      match CString.new newpath with
      | .error e => (.error e, [])
      | .ok new_path =>
          (if ret < 0 then .error (errFrom p ret) else .ok (),
           [.glfs_rename g.cluster_handle old_path new_path])

/-- `Gluster::link` (lines 459-469): `oldpath` encoded first, then
`newpath`; negative return translated via `get_error(ret_code)` (no cast). -/
def Gluster.link (p : Platform) (g : Gluster) (oldpath newpath : Bytes)
    (ret : Int) : Except GlusterError Unit × List NativeCall :=
  match CString.new oldpath with
  | .error e => (.error e, [])
  | .ok old_path =>
      match CString.new newpath with
      | .error e => (.error e, [])
      | .ok new_path =>
          (if ret < 0 then .error (errFrom p ret) else .ok (),
           [.glfs_link g.cluster_handle old_path new_path])

/-- On natural numbers below `2 ^ 31` the `as i32` cast is the identity. -/
theorem toI32_natCast (n : Nat) (h : n < 2 ^ 31) : toI32 (n : Int) = (n : Int) := by
  unfold toI32
  split <;> omega

/-- Claim C1 — evidence for the code bug: when the native call returns the
null handle, `open`, `create` and `opendir` return it to the caller wrapped
in `Ok` instead of translating it to an `Error`; the spec says a null native
result is never returned as a success value. -/
theorem open_create_opendir_return_null_handle_as_ok :
    (Gluster.«open» ⟨some 0⟩ (str "a") 0 none).1 = .ok none
    ∧ (Gluster.create ⟨some 0⟩ (str "a") 0 0 none).1 = .ok none
    ∧ (Gluster.opendir ⟨some 0⟩ (str "a") none).1 = .ok none :=
  ⟨rfl, rfl, rfl⟩

/-- Claim C2 — evidence for the code bug: dropping a connected `Gluster`
releases its non-null handle exactly once, but explicit `disconnect`
releases it twice, because the body's `glfs_fini` is followed by the
implicit drop of the consumed `self`, whose handle is still non-null; the
claim demands exactly one release over the whole lifetime. -/
theorem disconnect_releases_cluster_handle_twice :
    finiCount (Gluster.drop ⟨some 0⟩ 0) = 1
    ∧ finiCount (Gluster.disconnect ⟨some 0⟩ 0 0) = 2 :=
  ⟨rfl, rfl⟩

/-- Claim C3: every operation that takes a text path (connect's volume name
and all path-based operations) rejects a path containing an embedded NUL
byte with a `NulError` and performs no native call, and the two-path
operations (`rename`, `symlink`, `link`) fail on the first path that fails
to encode, before any native call. -/
theorem nul_path_rejected_before_native_call (p : Platform) (g : Gluster)
    (s t b : Bytes) (nr : GlfsPtr) (fr : GlfsFdPtr) (ir fl ln r : Int)
    (md dv sb : Nat) (hs : hasNul s = true) (ht : hasNul t = false) :
    Gluster.connect p s nr ir = (.error (.NulError s), [])
    ∧ Gluster.«open» g s fl fr = (.error (.NulError s), [])
    ∧ Gluster.create g s fl md fr = (.error (.NulError s), [])
    ∧ Gluster.opendir g s fr = (.error (.NulError s), [])
    ∧ Gluster.truncate p g s ln r = (.error (.NulError s), [])
    ∧ Gluster.stat p g s r sb = (.error (.NulError s), [])
    ∧ Gluster.lsstat p g s r sb = (.error (.NulError s), [])
    ∧ Gluster.access p g s fl r = (.error (.NulError s), [])
    ∧ Gluster.readlink p g s b r = (.error (.NulError s), [])
    ∧ Gluster.mknod p g s md dv r = (.error (.NulError s), [])
    ∧ Gluster.mkdir p g s md r = (.error (.NulError s), [])
    ∧ Gluster.unlink p g s r = (.error (.NulError s), [])
    ∧ Gluster.rmdir p g s r = (.error (.NulError s), [])
    ∧ Gluster.rename p g s t r = (.error (.NulError s), [])
    ∧ Gluster.symlink p g s t r = (.error (.NulError s), [])
    ∧ Gluster.link p g s t r = (.error (.NulError s), [])
    ∧ Gluster.rename p g t s r = (.error (.NulError s), [])
    ∧ Gluster.symlink p g t s r = (.error (.NulError s), [])
    ∧ Gluster.link p g t s r = (.error (.NulError s), []) := by
  simp [Gluster.connect, Gluster.«open», Gluster.create, Gluster.opendir,
    Gluster.truncate, Gluster.stat, Gluster.lsstat, Gluster.access,
    Gluster.readlink, Gluster.mknod, Gluster.mkdir, Gluster.unlink,
    Gluster.rmdir, Gluster.rename, Gluster.symlink, Gluster.link,
    CString.new, hs, ht]

/-- Witness for C3 at the NUL path `[0]` and the clean path `[116]`. -/
theorem nul_path_rejected_before_native_call_witness :
    hasNul [0] = true ∧ hasNul [116] = false
    ∧ (Gluster.connect glibc [0] none 0 = (.error (.NulError [0]), [])
      ∧ Gluster.«open» ⟨some 0⟩ [0] 0 none = (.error (.NulError [0]), [])
      ∧ Gluster.create ⟨some 0⟩ [0] 0 0 none = (.error (.NulError [0]), [])
      ∧ Gluster.opendir ⟨some 0⟩ [0] none = (.error (.NulError [0]), [])
      ∧ Gluster.truncate glibc ⟨some 0⟩ [0] 0 0 = (.error (.NulError [0]), [])
      ∧ Gluster.stat glibc ⟨some 0⟩ [0] 0 0 = (.error (.NulError [0]), [])
      ∧ Gluster.lsstat glibc ⟨some 0⟩ [0] 0 0 = (.error (.NulError [0]), [])
      ∧ Gluster.access glibc ⟨some 0⟩ [0] 0 0 = (.error (.NulError [0]), [])
      ∧ Gluster.readlink glibc ⟨some 0⟩ [0] [] 0 = (.error (.NulError [0]), [])
      ∧ Gluster.mknod glibc ⟨some 0⟩ [0] 0 0 0 = (.error (.NulError [0]), [])
      ∧ Gluster.mkdir glibc ⟨some 0⟩ [0] 0 0 = (.error (.NulError [0]), [])
      ∧ Gluster.unlink glibc ⟨some 0⟩ [0] 0 = (.error (.NulError [0]), [])
      ∧ Gluster.rmdir glibc ⟨some 0⟩ [0] 0 = (.error (.NulError [0]), [])
      ∧ Gluster.rename glibc ⟨some 0⟩ [0] [116] 0 = (.error (.NulError [0]), [])
      ∧ Gluster.symlink glibc ⟨some 0⟩ [0] [116] 0 = (.error (.NulError [0]), [])
      ∧ Gluster.link glibc ⟨some 0⟩ [0] [116] 0 = (.error (.NulError [0]), [])
      ∧ Gluster.rename glibc ⟨some 0⟩ [116] [0] 0 = (.error (.NulError [0]), [])
      ∧ Gluster.symlink glibc ⟨some 0⟩ [116] [0] 0 = (.error (.NulError [0]), [])
      ∧ Gluster.link glibc ⟨some 0⟩ [116] [0] 0 = (.error (.NulError [0]), [])) :=
  ⟨by decide, by decide,
    nul_path_rejected_before_native_call glibc ⟨some 0⟩ [0] [116] [] none none
      0 0 0 0 0 0 0 (by decide) (by decide)⟩

/-- Claim C4 — evidence for the code bug: when `glfs_init` reports `-2`,
`connect` returns an error, but its message is the translation of `-2`
itself (`get_error` hands the negative code straight to `strerror`), which
is the fallback text `Unknown error -2` and not the platform description
for `ENOENT`. -/
theorem connect_init_neg2_message_not_enoent :
    (Gluster.connect glibc (str "missing") (some 0) (-2)).1
      = .error (.Error (str "Unknown error -2"))
    ∧ str "Unknown error -2" ≠ glibc.strerror ENOENT :=
  ⟨rfl, by decide⟩

/-- Claim C5: each read/write-family operation and `lseek` returns an error
exactly when the native result is negative, and otherwise returns the native
result itself, so any successfully returned byte count or offset is
non-negative. -/
theorem rw_family_err_iff_negative_result (p : Platform) (fd : Nat)
    (buf : Bytes) (iov : List Bytes) (count : Nat) (offset whence fl r : Int) :
    (Gluster.read p fd buf fl r).1
      = (if r < 0 then .error (errFrom p (toI32 r)) else .ok r)
    ∧ (Gluster.write p fd buf fl r).1
      = (if r < 0 then .error (errFrom p (toI32 r)) else .ok r)
    ∧ (Gluster.readv p fd iov fl r).1
      = (if r < 0 then .error (errFrom p (toI32 r)) else .ok r)
    ∧ (Gluster.writev p fd iov fl r).1
      = (if r < 0 then .error (errFrom p (toI32 r)) else .ok r)
    ∧ (Gluster.pread p fd buf count offset fl r).1
      = (if r < 0 then .error (errFrom p (toI32 r)) else .ok r)
    ∧ (Gluster.pwrite p fd buf count offset fl r).1
      = (if r < 0 then .error (errFrom p (toI32 r)) else .ok r)
    ∧ (Gluster.preadv p fd iov offset fl r).1
      = (if r < 0 then .error (errFrom p (toI32 r)) else .ok r)
    ∧ (Gluster.pwritev p fd iov offset fl r).1
      = (if r < 0 then .error (errFrom p (toI32 r)) else .ok r)
    ∧ (Gluster.lseek p fd offset whence r).1
      = (if r < 0 then .error (errFrom p (toI32 r)) else .ok r) :=
  ⟨rfl, rfl, rfl, rfl, rfl, rfl, rfl, rfl, rfl⟩

/-- Claim C6: `disconnect` performs no native release on a null handle,
always invokes `glfs_fini` on the stored handle when it is non-null, and its
behaviour is independent of whatever the release calls return (their
failures are discarded); it produces no failure value at all. -/
theorem disconnect_null_noop_and_discards_release_result (k : Nat)
    (r₁ r₂ r₃ r₄ : Int) :
    Gluster.disconnect ⟨none⟩ r₁ r₂ = []
    ∧ NativeCall.glfs_fini (some k) ∈ Gluster.disconnect ⟨some k⟩ r₁ r₂
    ∧ ∀ g : Gluster, Gluster.disconnect g r₁ r₂ = Gluster.disconnect g r₃ r₄ := by
  refine ⟨rfl, ?_, fun g => rfl⟩
  simp [Gluster.disconnect, Gluster.drop]

/-- Claim C7: `get_error` resolves its argument to the platform's
description bytes for that number; it succeeds with exactly those bytes when
they decode as valid text, and otherwise the decoding failure itself (an
`IntoStringError` holding the undecodable bytes) is the reported error. -/
theorem get_error_resolves_description_or_decode_failure (p : Platform)
    (n : Int) :
    get_error p n
      = (if utf8Valid (p.strerror n) then .ok (p.strerror n)
         else .error (.IntoStringError (p.strerror n))) :=
  rfl

/-- Claim C8 counterexample: with `2 ^ 31` buffers, `writev` presents the
native call with element count `iov.len() as i32 = -(2 ^ 31)`, which is not
the number of buffers supplied, refuting the claim that the element count
is always `N`. -/
theorem writev_count_truncated_at_2pow31 :
    (Gluster.writev glibc 0 (List.replicate (2 ^ 31) ([] : Bytes)) 0 0).2
      = [.glfs_writev 0 (List.replicate (2 ^ 31) ([] : Bytes)) (-(2 ^ 31) : Int) 0]
    ∧ (-(2 ^ 31) : Int) ≠ ((List.replicate (2 ^ 31) ([] : Bytes)).length : Int) := by
  have hlen : (List.replicate (2 ^ 31) ([] : Bytes)).length = 2 ^ 31 :=
    List.length_replicate _ _
  have h32 : toI32 ((2 ^ 31 : Nat) : Int) = (-(2 ^ 31) : Int) := by decide
  constructor
  · show [NativeCall.glfs_writev 0 _
        (toI32 ((List.replicate (2 ^ 31) ([] : Bytes)).length : Int)) 0] = _
    rw [hlen, h32]
  · rw [hlen]
    decide

/-- Claim C8 as amended: the vectorized operations present the caller's
buffers to the native scatter/gather call in the caller's order with element
count `N as i32` — equal to `N` whenever `N < 2 ^ 31` — and a transferred
count returned on success is the non-negative native result. -/
theorem vectored_io_order_and_count (p : Platform) (fd : Nat)
    (iov : List Bytes) (offset fl r : Int) (h : iov.length < 2 ^ 31) :
    (Gluster.writev p fd iov fl r).2
      = [.glfs_writev fd iov (iov.length : Int) fl]
    ∧ (Gluster.readv p fd iov fl r).2
      = [.glfs_readv fd (iov.map List.length) (iov.length : Int) fl]
    ∧ (Gluster.pwritev p fd iov offset fl r).2
      = [.glfs_pwritev fd iov (iov.length : Int) offset fl]
    ∧ (Gluster.preadv p fd iov offset fl r).2
      = [.glfs_preadv fd (iov.map List.length) (iov.length : Int) offset fl]
    ∧ (0 ≤ r → (Gluster.writev p fd iov fl r).1 = .ok r)
    ∧ (0 ≤ r → (Gluster.readv p fd iov fl r).1 = .ok r)
    ∧ (0 ≤ r → (Gluster.pwritev p fd iov offset fl r).1 = .ok r)
    ∧ (0 ≤ r → (Gluster.preadv p fd iov offset fl r).1 = .ok r) := by
  have hc := toI32_natCast iov.length h
  exact ⟨by simp [Gluster.writev, hc], by simp [Gluster.readv, hc],
    by simp [Gluster.pwritev, hc], by simp [Gluster.preadv, hc],
    fun hr => by simp [Gluster.writev, Int.not_lt.mpr hr],
    fun hr => by simp [Gluster.readv, Int.not_lt.mpr hr],
    fun hr => by simp [Gluster.pwritev, Int.not_lt.mpr hr],
    fun hr => by simp [Gluster.preadv, Int.not_lt.mpr hr]⟩

/-- Witness for the amended C8 with two buffers of sizes 1 and 2. -/
theorem vectored_io_order_and_count_witness :
    ([[1], [2, 3]] : List Bytes).length < 2 ^ 31
    ∧ ((Gluster.writev glibc 7 [[1], [2, 3]] 0 3).2
        = [.glfs_writev 7 [[1], [2, 3]] 2 0]
      ∧ (Gluster.readv glibc 7 [[1], [2, 3]] 0 3).2
        = [.glfs_readv 7 [1, 2] 2 0]
      ∧ (Gluster.pwritev glibc 7 [[1], [2, 3]] 9 0 3).2
        = [.glfs_pwritev 7 [[1], [2, 3]] 2 9 0]
      ∧ (Gluster.preadv glibc 7 [[1], [2, 3]] 9 0 3).2
        = [.glfs_preadv 7 [1, 2] 2 9 0]
      ∧ ((0 : Int) ≤ 3 → (Gluster.writev glibc 7 [[1], [2, 3]] 0 3).1 = .ok 3)
      ∧ ((0 : Int) ≤ 3 → (Gluster.readv glibc 7 [[1], [2, 3]] 0 3).1 = .ok 3)
      ∧ ((0 : Int) ≤ 3 → (Gluster.pwritev glibc 7 [[1], [2, 3]] 9 0 3).1 = .ok 3)
      ∧ ((0 : Int) ≤ 3 → (Gluster.preadv glibc 7 [[1], [2, 3]] 9 0 3).1 = .ok 3)) :=
  ⟨by decide, vectored_io_order_and_count glibc 7 [[1], [2, 3]] 9 0 3 (by decide)⟩

/-- Claim C9: `connect` decides success solely from `glfs_init`'s return
code — whenever the volume name encodes and the code is non-negative it
returns a connection holding whatever `glfs_new` produced, even the null
handle, so "connected implies non-null handle" is not established. -/
theorem connect_ignores_null_cluster_handle (p : Platform) (vol : Bytes)
    (nr : GlfsPtr) (ir : Int) (hvol : hasNul vol = false) (hir : 0 ≤ ir) :
    (Gluster.connect p vol nr ir).1 = .ok ⟨nr⟩ := by
  simp [Gluster.connect, CString.new, hvol, Int.not_lt.mpr hir]

/-- Witness for C9: a connection in the connected state whose cluster
handle is null. -/
theorem connect_ignores_null_cluster_handle_witness :
    hasNul (str "vol") = false ∧ (0 : Int) ≤ 0
    ∧ (Gluster.connect glibc (str "vol") none 0).1 = .ok ⟨none⟩ :=
  ⟨by decide, by decide,
    connect_ignores_null_cluster_handle glibc (str "vol") none 0
      (by decide) (by decide)⟩

/-- Claim C10: `pread` and `pwrite` hand the caller-supplied `count` to the
native call unchanged, their results do not depend on the supplied buffer at
all, and in particular a call whose `count` (5) exceeds the buffer length
(0) is not detected — it succeeds whenever the native result is
non-negative. -/
theorem pread_pwrite_pass_count_unchecked (p : Platform) (fd : Nat)
    (buf buf' : Bytes) (count : Nat) (offset fl r : Int) :
    (Gluster.pread p fd buf count offset fl r).2
      = [.glfs_pread fd count offset fl]
    ∧ (Gluster.pwrite p fd buf count offset fl r).2
      = [.glfs_pwrite fd buf count offset fl]
    ∧ (Gluster.pread p fd buf count offset fl r).1
      = (Gluster.pread p fd buf' count offset fl r).1
    ∧ (Gluster.pwrite p fd buf count offset fl r).1
      = (Gluster.pwrite p fd buf' count offset fl r).1
    ∧ (Gluster.pread glibc 0 [] 5 0 0 3).1 = .ok 3 :=
  ⟨rfl, rfl, rfl, rfl, rfl⟩

end Gfapi
